import Mathlib

/-!
Verification of the NPCM8xx clock driver (drivers/clk/clk-npcm8xx.c):
a shallow embedding of its rate computations and static topology tables,
with theorems checking the design document's assertions against them.

Machine integers are modelled as `Nat` with explicit `% 2 ^ 64` where
64-bit wrap-around matters; the 32-bit register words read from hardware
are arbitrary `Nat` arguments (the bit-field extractions only ever look
at bits below 32, so no `% 2 ^ 32` is needed for faithfulness).
-/

/-- Linux GENMASK(h, l): the mask with bits l..h set. -/
def GENMASK (h l : Nat) : Nat := (2 ^ (h - l + 1) - 1) <<< l

/-- Lowest set bit of a word (0 for 0); FIELD_GET shifts by this. -/
def lowestBit (m : Nat) : Nat := m &&& (m ^^^ (m - 1))

/-- Linux FIELD_GET(mask, val): the field under mask, shifted down to bit 0.
The shift amount is the index of the mask's lowest set bit, realised here
as division by that power of two. -/
def FIELD_GET (mask val : Nat) : Nat := (val &&& mask) / lowestBit mask

def PLLCON_LOKI : Nat := 2 ^ 31
def PLLCON_LOKS : Nat := 2 ^ 30
def PLLCON_FBDV : Nat := GENMASK 27 16
def PLLCON_OTDV2 : Nat := GENMASK 15 13
def PLLCON_PWDEN : Nat := 2 ^ 12
def PLLCON_OTDV1 : Nat := GENMASK 10 8
def PLLCON_INDV : Nat := GENMASK 5 0

def NPCM8XX_REF_CLK : Nat := 25000000

/-- npcm8xx_clk_pll_recalc_rate: `val` is the single readl of the pllcon
register (only reachable when parent_rate is nonzero).  The widened
multiplication `(u64)parent_rate * fbdv` wraps modulo 2 ^ 64; `do_div`
then performs one combined truncating division. -/
def npcm8xx_clk_pll_recalc_rate (parent_rate val : Nat) : Nat :=
  if parent_rate = 0 then 0
  else
    let indv := FIELD_GET PLLCON_INDV val
    let fbdv := FIELD_GET PLLCON_FBDV val
    let otdv1 := FIELD_GET PLLCON_OTDV1 val
    let otdv2 := FIELD_GET PLLCON_OTDV2 val
    (parent_rate * fbdv) % 2 ^ 64 / (indv * otdv1 * otdv2)

/-! Register offsets used by the topology tables. -/

def NPCM8XX_CLKSEL : Nat := 0x04
def NPCM8XX_CLKDIV1 : Nat := 0x08
def NPCM8XX_CLKDIV2 : Nat := 0x2C
def NPCM8XX_CLKDIV3 : Nat := 0x58
def NPCM8XX_CLKDIV4 : Nat := 0x7C
def NPCM8XX_PLLCON0 : Nat := 0x0C
def NPCM8XX_PLLCON1 : Nat := 0x10
def NPCM8XX_PLLCON2 : Nat := 0x54
def NPCM8XX_PLLCONG : Nat := 0x60
def NPCM8XX_THRTL_CNT : Nat := 0xC0

/-- Errors of the rate resolver, per the design document's error model. -/
inductive ClkError where
  | UnknownMuxSelection
  | ZeroParentRate
  deriving DecidableEq

/-- PLL descriptor (struct npcm8xx_clk_pll_data).  The onecell export
index (a dt-bindings constant; that header is not under src/) is omitted:
no property here depends on it.  `flags` holds the clk framework flags
word (always 0 for the PLLs). -/
structure npcm8xx_clk_pll_data where
  reg : Nat
  name : String
  parent_name : String
  flags : Nat
  deriving DecidableEq

/-- Divider descriptor (struct npcm8xx_clk_div_data).  The source's
clk_divider_flags byte is decomposed into the two flag bits it actually
uses: CLK_DIVIDER_READ_ONLY as `read_only` and CLK_DIVIDER_POWER_OF_TWO
as `pow2`.  `critical` is CLK_IS_CRITICAL in the clk flags word; the
onecell export index is omitted as unused by these properties. -/
structure npcm8xx_clk_div_data where
  reg : Nat
  shift : Nat
  width : Nat
  name : String
  parent_name : String
  read_only : Bool
  pow2 : Bool
  critical : Bool
  deriving DecidableEq

/-- Mux descriptor (struct npcm8xx_clk_mux_data).  `table` maps list
positions (parent indices) to raw selector values; `critical` is
CLK_IS_CRITICAL; the onecell export index is omitted as unused. -/
structure npcm8xx_clk_mux_data where
  shift : Nat
  mask : Nat
  table : List Nat
  name : String
  parent_names : List String
  critical : Bool
  deriving DecidableEq

/-- Fixed-factor clock registered in npcm8xx_clk_probe:
devm_clk_hw_register_fixed_factor(dev, name, parent_name, 0, mult, div). -/
structure npcm8xx_fixed_factor_data where
  name : String
  parent_name : String
  mult : Nat
  div : Nat
  deriving DecidableEq

def npcm8xx_plls : List npcm8xx_clk_pll_data :=
  [⟨NPCM8XX_PLLCON0, "pll0", "refclk", 0⟩,
   ⟨NPCM8XX_PLLCON1, "pll1", "refclk", 0⟩,
   ⟨NPCM8XX_PLLCON2, "pll2", "refclk", 0⟩,
   ⟨NPCM8XX_PLLCONG, "pll_gfx", "refclk", 0⟩]

/-- The five fixed-factor clocks registered inline in npcm8xx_clk_probe,
each with mult = 1, div = 2, in registration order. -/
def npcm8xx_fixed_factors : List npcm8xx_fixed_factor_data :=
  [⟨"pll1_div2", "pll1", 1, 2⟩,
   ⟨"pll2_div2", "pll2", 1, 2⟩,
   ⟨"pre_clk", "cpu", 1, 2⟩,
   ⟨"axi", "th", 1, 2⟩,
   ⟨"atb", "axi", 1, 2⟩]

def pll_mux_parents : List String := ["pll0", "pll1", "refclk", "pll2_div2"]

def npcm8xx_muxes : List npcm8xx_clk_mux_data :=
  [⟨0, GENMASK 1 0, [0, 1, 2, 3, 7], "cpu",
    ["pll0", "pll1", "refclk", "sysbypck", "pll2"], true⟩,
   ⟨4, GENMASK 1 0, [0, 2], "gfx_pixel", ["pll_gfx", "refclk"], false⟩,
   ⟨6, GENMASK 1 0, [0, 1, 2, 3], "sd_mux", pll_mux_parents, false⟩,
   ⟨8, GENMASK 1 0, [0, 1, 2, 3], "uart_mux", pll_mux_parents, false⟩,
   ⟨10, GENMASK 1 0, [2, 3], "serial_usb_mux", ["refclk", "pll2_div2"], false⟩,
   ⟨12, GENMASK 1 0, [0, 2, 3], "mc_phy",
    ["pll1_div2", "refclk", "mcbypck"], false⟩,
   ⟨14, GENMASK 1 0, [0, 1, 2, 3], "adc_mux", pll_mux_parents, false⟩,
   ⟨16, GENMASK 1 0, [0, 1, 2, 3], "gfx_mux", pll_mux_parents, false⟩,
   ⟨18, GENMASK 2 0, [0, 1, 2, 3, 4], "clkout_mux",
    ["pll0", "pll1", "refclk", "pll_gfx", "pll2_div2"], false⟩,
   ⟨21, GENMASK 1 0, [2, 3], "gfxm_mux", ["refclk", "pll2_div2"], false⟩,
   ⟨23, GENMASK 1 0, [2, 3], "dvc_mux", ["refclk", "pll2"], false⟩,
   ⟨25, GENMASK 1 0, [0, 1, 2, 3], "rg_mux", pll_mux_parents, false⟩,
   ⟨27, GENMASK 1 0, [0, 1, 2, 3], "rcp_mux", pll_mux_parents, false⟩]

def npcm8xx_divs : List npcm8xx_clk_div_data :=
  [⟨NPCM8XX_CLKDIV1, 28, 3, "adc", "pre adc", true, true, false⟩,
   ⟨NPCM8XX_CLKDIV1, 26, 2, "ahb", "pre_clk", true, false, true⟩,
   ⟨NPCM8XX_CLKDIV1, 21, 5, "pre adc", "adc_mux", true, false, false⟩,
   ⟨NPCM8XX_CLKDIV1, 16, 5, "uart", "uart_mux", true, false, false⟩,
   ⟨NPCM8XX_CLKDIV1, 11, 5, "mmc", "sd_mux", true, false, false⟩,
   ⟨NPCM8XX_CLKDIV1, 6, 5, "spi3", "ahb", false, false, false⟩,
   ⟨NPCM8XX_CLKDIV1, 2, 4, "pci", "gfx_mux", true, false, false⟩,
   ⟨NPCM8XX_CLKDIV2, 30, 2, "apb4", "ahb", true, true, false⟩,
   ⟨NPCM8XX_CLKDIV2, 28, 2, "apb3", "ahb", true, true, false⟩,
   ⟨NPCM8XX_CLKDIV2, 26, 2, "apb2", "ahb", true, true, false⟩,
   ⟨NPCM8XX_CLKDIV2, 24, 2, "apb1", "ahb", true, true, false⟩,
   ⟨NPCM8XX_CLKDIV2, 22, 2, "apb5", "ahb", true, true, false⟩,
   ⟨NPCM8XX_CLKDIV2, 16, 5, "clkout", "clkout_mux", true, false, false⟩,
   ⟨NPCM8XX_CLKDIV2, 13, 3, "gfx0_gfx1_mem", "gfx_mux", true, false, false⟩,
   ⟨NPCM8XX_CLKDIV2, 8, 5, "usb_bridge", "serial_usb_mux", true, false, false⟩,
   ⟨NPCM8XX_CLKDIV2, 4, 4, "usb_host", "serial_usb_mux", true, false, false⟩,
   ⟨NPCM8XX_CLKDIV2, 0, 4, "sdhc", "sd_mux", true, false, false⟩,
   ⟨NPCM8XX_CLKDIV3, 16, 8, "spi1", "ahb", true, false, false⟩,
   ⟨NPCM8XX_CLKDIV3, 11, 5, "uart2", "uart_mux", true, false, false⟩,
   ⟨NPCM8XX_CLKDIV3, 6, 5, "spi0", "ahb", true, false, false⟩,
   ⟨NPCM8XX_CLKDIV3, 1, 5, "spix", "ahb", true, false, false⟩,
   ⟨NPCM8XX_CLKDIV4, 28, 4, "rg", "rg_mux", true, false, false⟩,
   ⟨NPCM8XX_CLKDIV4, 12, 4, "rcp", "rcp_mux", true, false, false⟩,
   ⟨NPCM8XX_THRTL_CNT, 0, 2, "th", "cpu", true, true, false⟩]

/-- All clock names registered by npcm8xx_clk_probe: the fixed-rate
refclk, then the PLLs, fixed-factor clocks, dividers and muxes. -/
def registeredNames : List String :=
  "refclk" :: (npcm8xx_plls.map (·.name) ++
    npcm8xx_fixed_factors.map (·.name) ++
    npcm8xx_divs.map (·.name) ++
    npcm8xx_muxes.map (·.name))

/-- Every parent reference appearing in the topology tables: the single
parents of PLLs, fixed-factor clocks and dividers, and every entry of
every mux candidate-parent list. -/
def allParentRefs : List String :=
  npcm8xx_plls.map (·.parent_name) ++
    npcm8xx_fixed_factors.map (·.parent_name) ++
    npcm8xx_divs.map (·.parent_name) ++
    (npcm8xx_muxes.map (·.parent_names)).flatten

/-- Bit-field codec of the design document, section 4.1: the width-bit
value at bit position `shift` of `word`. -/
def extract (word shift width : Nat) : Nat := (word >>> shift) &&& (2 ^ width - 1)

/-- Modelled from the spec: generic divider rate resolution (the generic
clk divider implementation is not under src/).  Read this divider's
register from the register image `regs`, extract its field, and divide
the parent rate by field + 1, or shift it right by the field when the
power-of-two flag is set, with integer truncation. -/
def divider_resolve (regs : Nat → Nat) (d : npcm8xx_clk_div_data)
    (parent_rate : Nat) : Nat :=
  let field := extract (regs d.reg) d.shift d.width
  if d.pow2 then parent_rate >>> field else parent_rate / (field + 1)

/-- Modelled from the spec: the mux raw-selector lookup (the generic clk
mux implementation is not under src/).  Scan the lookup table in order
and return the first position holding the observed raw value, or none. -/
def clk_mux_val_to_index (table : List Nat) (val : Nat) : Option Nat :=
  match table with
  | [] => none
  | t :: ts =>
    if t = val then some 0 else (clk_mux_val_to_index ts val).map (· + 1)

/-- Modelled from the spec: mux rate resolution (the generic clk mux
implementation is not under src/).  Read the shared CLKSEL register,
extract this mux's field with its shift and mask, look the raw value up
in the mux's table; fail with UnknownMuxSelection when absent, else
resolve the candidate parent at the found position via the parent-rate
oracle `pr`. -/
def mux_resolve (regs : Nat → Nat) (pr : String → Nat)
    (m : npcm8xx_clk_mux_data) : Except ClkError Nat :=
  let raw := (regs NPCM8XX_CLKSEL >>> m.shift) &&& m.mask
  match clk_mux_val_to_index m.table raw with
  | none => Except.error ClkError.UnknownMuxSelection
  | some i => Except.ok (pr (m.parent_names.getD i ""))

/-- Modelled from the spec: fixed-factor rate resolution (the generic
fixed-factor clk implementation is not under src/).  Per the spec it
computes parent * mult / div with exact (64-bit-safe) intermediate
arithmetic and fails with ZeroParentRate on a zero parent rate. -/
def fixed_factor_resolve (f : npcm8xx_fixed_factor_data)
    (parent_rate : Nat) : Except ClkError Nat :=
  if parent_rate = 0 then Except.error ClkError.ZeroParentRate
  else Except.ok (parent_rate * f.mult / f.div)

/-! Helper lemmas. -/

lemma and_shiftLeft_div_pow (val w l : Nat) :
    (val &&& ((2 ^ w - 1) <<< l)) / 2 ^ l = (val >>> l) &&& (2 ^ w - 1) := by
  rw [← Nat.shiftRight_eq_div_pow]
  apply Nat.eq_of_testBit_eq
  intro i
  simp [Nat.testBit_shiftRight, Nat.testBit_and, Nat.testBit_shiftLeft,
    Nat.testBit_two_pow_sub_one, Nat.le_add_right, Nat.add_sub_cancel_left,
    Bool.and_comm]

lemma FIELD_GET_INDV (val : Nat) : FIELD_GET PLLCON_INDV val = val &&& 63 := by
  have hm : PLLCON_INDV = (2 ^ 6 - 1) <<< 0 := by decide
  have hl : lowestBit PLLCON_INDV = 2 ^ 0 := by decide
  rw [FIELD_GET, hl, hm, and_shiftLeft_div_pow]
  simp

lemma FIELD_GET_FBDV (val : Nat) :
    FIELD_GET PLLCON_FBDV val = (val >>> 16) &&& 4095 := by
  have hm : PLLCON_FBDV = (2 ^ 12 - 1) <<< 16 := by decide
  have hl : lowestBit PLLCON_FBDV = 2 ^ 16 := by decide
  rw [FIELD_GET, hl, hm, and_shiftLeft_div_pow]
  norm_num

lemma FIELD_GET_OTDV1 (val : Nat) :
    FIELD_GET PLLCON_OTDV1 val = (val >>> 8) &&& 7 := by
  have hm : PLLCON_OTDV1 = (2 ^ 3 - 1) <<< 8 := by decide
  have hl : lowestBit PLLCON_OTDV1 = 2 ^ 8 := by decide
  rw [FIELD_GET, hl, hm, and_shiftLeft_div_pow]
  norm_num

lemma FIELD_GET_OTDV2 (val : Nat) :
    FIELD_GET PLLCON_OTDV2 val = (val >>> 13) &&& 7 := by
  have hm : PLLCON_OTDV2 = (2 ^ 3 - 1) <<< 13 := by decide
  have hl : lowestBit PLLCON_OTDV2 = 2 ^ 13 := by decide
  rw [FIELD_GET, hl, hm, and_shiftLeft_div_pow]
  norm_num

lemma clk_mux_val_to_index_eq_none {table : List Nat} {v : Nat}
    (h : v ∉ table) : clk_mux_val_to_index table v = none := by
  induction table with
  | nil => rfl
  | cons t ts ih =>
    rw [clk_mux_val_to_index]
    rw [List.mem_cons, not_or] at h
    rw [if_neg (fun e => h.1 e.symm), ih h.2]
    rfl

lemma clk_mux_val_to_index_eq_some {table : List Nat} {v : Nat} {i : Nat}
    (hnd : table.Nodup) (hi : i < table.length) (hv : table.getD i 0 = v) :
    clk_mux_val_to_index table v = some i := by
  induction table generalizing i with
  | nil => exact absurd hi (Nat.not_lt_zero i)
  | cons t ts ih =>
    rw [List.nodup_cons] at hnd
    cases i with
    | zero =>
      rw [List.getD_cons_zero] at hv
      rw [clk_mux_val_to_index, if_pos hv]
    | succ j =>
      rw [List.getD_cons_succ] at hv
      have hj : j < ts.length := Nat.lt_of_succ_lt_succ hi
      have hmem : v ∈ ts := by
        rw [← hv, List.getD_eq_getElem ts 0 hj]
        exact List.getElem_mem hj
      have hne : t ≠ v := fun e => hnd.1 (e ▸ hmem)
      rw [clk_mux_val_to_index, if_neg hne, ih hnd.2 hj hv]
      rfl

lemma npcm8xx_mux_tables_nodup :
    ∀ m ∈ npcm8xx_muxes, m.table.Nodup := by decide

/-! Claim theorems. -/

/-- C1, as stated, is false: at parent_rate 2 ^ 63 and control word
0x22101 (INDV = 1, OTDV1 = 1, OTDV2 = 1, FBDV = 2), the widened 64-bit
product wraps to 0 and the code returns 0, while the exact value
floor(parent_rate * FBDV / (INDV * OTDV1 * OTDV2)) is 2 ^ 64. -/
theorem pll_recalc_rate_formula_cex :
    npcm8xx_clk_pll_recalc_rate (2 ^ 63) 139521 ≠
      2 ^ 63 * ((139521 >>> 16) &&& 4095) /
        ((139521 &&& 63) * ((139521 >>> 8) &&& 7) * ((139521 >>> 13) &&& 7)) := by
  decide

/-- C1 (amended): for every PLL control word and every nonzero parent
rate whose widened product parent_rate * FBDV still fits in 64 bits, the
resolved rate equals floor(parent_rate * FBDV / (INDV * OTDV1 * OTDV2)),
the four sub-fields being taken from one control word at the layout
INDV = bits 5:0, OTDV1 = bits 10:8, OTDV2 = bits 15:13,
FBDV = bits 27:16, with a single combined division. -/
theorem pll_recalc_rate_formula (parent_rate val : Nat)
    (hp : parent_rate ≠ 0)
    (hov : parent_rate * ((val >>> 16) &&& 4095) < 2 ^ 64) :
    npcm8xx_clk_pll_recalc_rate parent_rate val =
      parent_rate * ((val >>> 16) &&& 4095) /
        ((val &&& 63) * ((val >>> 8) &&& 7) * ((val >>> 13) &&& 7)) := by
  simp only [npcm8xx_clk_pll_recalc_rate, if_neg hp,
    FIELD_GET_INDV, FIELD_GET_FBDV, FIELD_GET_OTDV1, FIELD_GET_OTDV2]
  rw [Nat.mod_eq_of_lt hov]

theorem pll_recalc_rate_formula_witness :
    (25000000 : Nat) ≠ 0 ∧
      25000000 * ((4203009 >>> 16) &&& 4095) < 2 ^ 64 ∧
      npcm8xx_clk_pll_recalc_rate 25000000 4203009 =
        25000000 * ((4203009 >>> 16) &&& 4095) /
          ((4203009 &&& 63) * ((4203009 >>> 8) &&& 7) * ((4203009 >>> 13) &&& 7)) :=
  ⟨by decide, by decide,
    pll_recalc_rate_formula 25000000 4203009 (by decide) (by decide)⟩

/-- C2: for every divider in the topology table, resolution divides the
parent rate by field + 1 when the power-of-two flag is unset, and
shifts the parent rate right by the field when it is set, for every
register image and parent rate. -/
theorem divider_resolution (d : npcm8xx_clk_div_data)
    (hd : d ∈ npcm8xx_divs) (regs : Nat → Nat) (parent_rate : Nat) :
    (d.pow2 = false →
      divider_resolve regs d parent_rate =
        parent_rate / (extract (regs d.reg) d.shift d.width + 1)) ∧
    (d.pow2 = true →
      divider_resolve regs d parent_rate =
        parent_rate >>> extract (regs d.reg) d.shift d.width) := by
  constructor <;> intro h <;> simp [divider_resolve, h]

theorem divider_resolution_witness :
    divider_resolve (fun _ => 0)
      ⟨NPCM8XX_CLKDIV1, 26, 2, "ahb", "pre_clk", true, false, true⟩ 100 =
      100 :=
  ((divider_resolution
    ⟨NPCM8XX_CLKDIV1, 26, 2, "ahb", "pre_clk", true, false, true⟩
    (by decide) (fun _ => 0) 100).1 rfl).trans (by decide)

/-- C3: for every mux in the topology table, a raw selector value absent
from its lookup table makes resolution fail with UnknownMuxSelection,
and a raw value found at position i of the table makes resolution return
the resolved rate of the candidate parent at position i. -/
theorem mux_resolution (m : npcm8xx_clk_mux_data) (hm : m ∈ npcm8xx_muxes)
    (regs : Nat → Nat) (pr : String → Nat) :
    (((regs NPCM8XX_CLKSEL >>> m.shift) &&& m.mask) ∉ m.table →
      mux_resolve regs pr m = Except.error ClkError.UnknownMuxSelection) ∧
    (∀ i, i < m.table.length →
      m.table.getD i 0 = (regs NPCM8XX_CLKSEL >>> m.shift) &&& m.mask →
      mux_resolve regs pr m = Except.ok (pr (m.parent_names.getD i ""))) := by
  constructor
  · intro h
    simp only [mux_resolve]
    rw [clk_mux_val_to_index_eq_none h]
  · intro i hi hv
    simp only [mux_resolve]
    rw [clk_mux_val_to_index_eq_some (npcm8xx_mux_tables_nodup m hm) hi hv]

theorem mux_resolution_witness :
    mux_resolve (fun _ => 0) (fun _ => 7)
      ⟨4, GENMASK 1 0, [0, 2], "gfx_pixel", ["pll_gfx", "refclk"], false⟩ =
      Except.ok 7 :=
  (mux_resolution
    ⟨4, GENMASK 1 0, [0, 2], "gfx_pixel", ["pll_gfx", "refclk"], false⟩
    (by decide) (fun _ => 0) (fun _ => 7)).2 0 (by decide) (by decide)

/-- C4: with a zero parent rate the PLL resolves to 0 for every control
word value, so the result involves no division and no register-derived
quantity. -/
theorem pll_zero_parent_rate (val : Nat) :
    npcm8xx_clk_pll_recalc_rate 0 val = 0 := rfl

/-- C5, as stated, is false: the cpu mux candidate parent "sysbypck"
(and likewise "mcbypck" of the mc_phy mux) appears as a parent
reference, yet no node of that name is registered by the probe
routine. -/
theorem topology_parents_registered_cex :
    ¬ (∀ p ∈ allParentRefs, p ∈ registeredNames) := by decide

/-- C5 (amended): every parent reference in the topology tables names a
registered node, except the external bypass inputs "sysbypck" and
"mcbypck", which appear only as cpu and mc_phy mux candidates and are
not registered by this driver. -/
theorem topology_parents_registered (p : String) (hp : p ∈ allParentRefs) :
    p ∈ registeredNames ∨ p = "sysbypck" ∨ p = "mcbypck" := by
  have h : ∀ q ∈ allParentRefs,
      q ∈ registeredNames ∨ q = "sysbypck" ∨ q = "mcbypck" := by decide
  exact h p hp

theorem topology_parents_registered_witness :
    "pll0" ∈ allParentRefs ∧
      ("pll0" ∈ registeredNames ∨ "pll0" = "sysbypck" ∨ "pll0" = "mcbypck") :=
  ⟨by decide, topology_parents_registered "pll0" (by decide)⟩

/-- C6, as stated, is false: the "spi3" divider entry has a zero
clk_divider_flags word, so its read-only flag is unset. -/
theorem divider_read_only_cex :
    ¬ (∀ d ∈ npcm8xx_divs, d.read_only = true) := by decide

/-- C6 (amended): every divider in the topology table except "spi3" has
the read-only flag set. -/
theorem divider_read_only (d : npcm8xx_clk_div_data)
    (hd : d ∈ npcm8xx_divs) (hn : d.name ≠ "spi3") : d.read_only = true := by
  have h : ∀ x ∈ npcm8xx_divs, x.name ≠ "spi3" → x.read_only = true := by
    decide
  exact h d hd hn

theorem divider_read_only_witness :
    (⟨NPCM8XX_CLKDIV1, 28, 3, "adc", "pre adc", true, true, false⟩ :
        npcm8xx_clk_div_data) ∈ npcm8xx_divs ∧
      (⟨NPCM8XX_CLKDIV1, 28, 3, "adc", "pre adc", true, true, false⟩ :
        npcm8xx_clk_div_data).read_only = true :=
  ⟨by decide,
    divider_read_only
      ⟨NPCM8XX_CLKDIV1, 28, 3, "adc", "pre adc", true, true, false⟩
      (by decide) (by decide)⟩

/-- C7: every fixed-factor clock of the probe routine resolves to
parent * mult / div with exact integer arithmetic, and fails with
ZeroParentRate exactly when the parent rate is 0. -/
theorem fixed_factor_resolution (f : npcm8xx_fixed_factor_data)
    (hf : f ∈ npcm8xx_fixed_factors) (parent_rate : Nat) :
    (parent_rate = 0 →
      fixed_factor_resolve f parent_rate =
        Except.error ClkError.ZeroParentRate) ∧
    (parent_rate ≠ 0 →
      fixed_factor_resolve f parent_rate =
        Except.ok (parent_rate * f.mult / f.div)) := by
  constructor <;> intro h <;> simp [fixed_factor_resolve, h]

theorem fixed_factor_resolution_witness :
    fixed_factor_resolve ⟨"pll1_div2", "pll1", 1, 2⟩ 800000000 =
      Except.ok 400000000 :=
  (fixed_factor_resolution ⟨"pll1_div2", "pll1", 1, 2⟩ (by decide)
    800000000).2 (by decide)

/-- C8: with the reference source at NPCM8XX_REF_CLK = 25,000,000 Hz
(the parent of pll0 in the PLL table being "refclk") and a control word
encoding INDV = 1, FBDV = 64, OTDV1 = 2, OTDV2 = 1, the PLL resolves to
exactly 800,000,000 Hz. -/
theorem pll0_end_to_end (val : Nat)
    (h1 : FIELD_GET PLLCON_INDV val = 1)
    (h2 : FIELD_GET PLLCON_FBDV val = 64)
    (h3 : FIELD_GET PLLCON_OTDV1 val = 2)
    (h4 : FIELD_GET PLLCON_OTDV2 val = 1) :
    (npcm8xx_plls.getD 0 ⟨0, "", "", 0⟩).parent_name = "refclk" ∧
      npcm8xx_clk_pll_recalc_rate NPCM8XX_REF_CLK val = 800000000 := by
  refine ⟨by decide, ?_⟩
  simp only [npcm8xx_clk_pll_recalc_rate, h1, h2, h3, h4, NPCM8XX_REF_CLK]
  decide

theorem pll0_end_to_end_witness :
    FIELD_GET PLLCON_INDV 4203009 = 1 ∧
      FIELD_GET PLLCON_FBDV 4203009 = 64 ∧
      FIELD_GET PLLCON_OTDV1 4203009 = 2 ∧
      FIELD_GET PLLCON_OTDV2 4203009 = 1 ∧
      (npcm8xx_plls.getD 0 ⟨0, "", "", 0⟩).parent_name = "refclk" ∧
      npcm8xx_clk_pll_recalc_rate NPCM8XX_REF_CLK 4203009 = 800000000 :=
  ⟨by decide, by decide, by decide, by decide,
    (pll0_end_to_end 4203009 (by decide) (by decide) (by decide)
      (by decide)).1,
    (pll0_end_to_end 4203009 (by decide) (by decide) (by decide)
      (by decide)).2⟩

/-- C9: two control words agreeing on the INDV, FBDV, OTDV1 and OTDV2
sub-fields yield the same PLL rate for every parent rate; differing
bits — PWDEN, the lock-status bits 30 and 31, or any other bit outside
the four fields — cannot influence the result. -/
theorem pll_rate_field_noninterference (parent_rate v1 v2 : Nat)
    (h1 : FIELD_GET PLLCON_INDV v1 = FIELD_GET PLLCON_INDV v2)
    (h2 : FIELD_GET PLLCON_FBDV v1 = FIELD_GET PLLCON_FBDV v2)
    (h3 : FIELD_GET PLLCON_OTDV1 v1 = FIELD_GET PLLCON_OTDV1 v2)
    (h4 : FIELD_GET PLLCON_OTDV2 v1 = FIELD_GET PLLCON_OTDV2 v2) :
    npcm8xx_clk_pll_recalc_rate parent_rate v1 =
      npcm8xx_clk_pll_recalc_rate parent_rate v2 := by
  simp only [npcm8xx_clk_pll_recalc_rate, h1, h2, h3, h4]

theorem pll_rate_field_noninterference_witness :
    FIELD_GET PLLCON_INDV 139521 = FIELD_GET PLLCON_INDV 3221369089 ∧
      FIELD_GET PLLCON_FBDV 139521 = FIELD_GET PLLCON_FBDV 3221369089 ∧
      FIELD_GET PLLCON_OTDV1 139521 = FIELD_GET PLLCON_OTDV1 3221369089 ∧
      FIELD_GET PLLCON_OTDV2 139521 = FIELD_GET PLLCON_OTDV2 3221369089 ∧
      npcm8xx_clk_pll_recalc_rate 25000000 139521 =
        npcm8xx_clk_pll_recalc_rate 25000000 3221369089 :=
  ⟨by decide, by decide, by decide, by decide,
    pll_rate_field_noninterference 25000000 139521 3221369089
      (by decide) (by decide) (by decide) (by decide)⟩

/-- C10: when the parent rate is nonzero and the extracted INDV, OTDV1
and OTDV2 fields are each at least 1, the combined divisor of the PLL
computation is nonzero, so the unguarded division can never be a
division by zero, and the rate returned is exactly the widened product
divided by that nonzero divisor. -/
theorem pll_divisor_nonzero (parent_rate val : Nat)
    (hp : parent_rate ≠ 0)
    (h1 : 1 ≤ FIELD_GET PLLCON_INDV val)
    (h2 : 1 ≤ FIELD_GET PLLCON_OTDV1 val)
    (h3 : 1 ≤ FIELD_GET PLLCON_OTDV2 val) :
    FIELD_GET PLLCON_INDV val * FIELD_GET PLLCON_OTDV1 val *
        FIELD_GET PLLCON_OTDV2 val ≠ 0 ∧
      npcm8xx_clk_pll_recalc_rate parent_rate val =
        (parent_rate * FIELD_GET PLLCON_FBDV val) % 2 ^ 64 /
          (FIELD_GET PLLCON_INDV val * FIELD_GET PLLCON_OTDV1 val *
            FIELD_GET PLLCON_OTDV2 val) := by
  refine ⟨Nat.ne_of_gt (Nat.mul_pos (Nat.mul_pos h1 h2) h3), ?_⟩
  simp only [npcm8xx_clk_pll_recalc_rate, if_neg hp]

theorem pll_divisor_nonzero_witness :
    (25000000 : Nat) ≠ 0 ∧
      1 ≤ FIELD_GET PLLCON_INDV 139521 ∧
      1 ≤ FIELD_GET PLLCON_OTDV1 139521 ∧
      1 ≤ FIELD_GET PLLCON_OTDV2 139521 ∧
      FIELD_GET PLLCON_INDV 139521 * FIELD_GET PLLCON_OTDV1 139521 *
        FIELD_GET PLLCON_OTDV2 139521 ≠ 0 :=
  ⟨by decide, by decide, by decide, by decide,
    (pll_divisor_nonzero 25000000 139521 (by decide) (by decide)
      (by decide) (by decide)).1⟩
